import Mathlib

/-!
Verification of the discord resource-tracker bot (src/bot.js) against its
natural-language specification.  The definitions below are a shallow
embedding of the relevant handler code: player records and resource
arithmetic (set / update / damage handlers), the per-player attack/cast
penalty ledger, the penalty prompt / resume protocol, and the dice
classification shared by the attack, cast and check handlers.  Dice rolls
are handled by injecting the two die results, exactly as the spec requires
of the resolution engine.
-/

namespace Bot

/-- A player record, as stored in `playerData` (bot.js, `initPlayer`,
lines 258-283).  Resource values are JS numbers that only ever hold
integers here, so they are embedded as `Int`; the status-effect list holds
`(name, duration)` pairs. -/
structure PlayerRecord where
  username : String
  characterName : String
  HP : Int
  MP : Int
  IP : Int
  Armor : Int
  Barrier : Int
  maxHP : Int
  maxMP : Int
  maxIP : Int
  maxArmor : Int
  maxBarrier : Int
  statusEffects : List (String × Int)
  deriving Repr, DecidableEq

/-- The record `initPlayer` creates on first reference (bot.js 258-274):
every resource zero, empty status list. -/
def initPlayer (username characterName : String) : PlayerRecord :=
  { username := username
    characterName := characterName
    HP := 0, MP := 0, IP := 0, Armor := 0, Barrier := 0
    maxHP := 0, maxMP := 0, maxIP := 0, maxArmor := 0, maxBarrier := 0
    statusEffects := [] }

/-- The five resource kinds (bot.js `RESOURCES`, line 52). -/
inductive Resource
  | HP | MP | IP | Armor | Barrier
  deriving Repr, DecidableEq

/-- `data[resource]` — the current value of one resource kind. -/
def PlayerRecord.get (p : PlayerRecord) : Resource → Int
  | .HP => p.HP
  | .MP => p.MP
  | .IP => p.IP
  | .Armor => p.Armor
  | .Barrier => p.Barrier

/-- `data[`max${resource}`]` — the maximum of one resource kind. -/
def PlayerRecord.getMax (p : PlayerRecord) : Resource → Int
  | .HP => p.maxHP
  | .MP => p.maxMP
  | .IP => p.maxIP
  | .Armor => p.maxArmor
  | .Barrier => p.maxBarrier

/-- `data[resource] = v` — overwriting the current value of one resource. -/
def PlayerRecord.set (p : PlayerRecord) : Resource → Int → PlayerRecord
  | .HP, v => { p with HP := v }
  | .MP, v => { p with MP := v }
  | .IP, v => { p with IP := v }
  | .Armor, v => { p with Armor := v }
  | .Barrier, v => { p with Barrier := v }

/-- The `/update` handler's mutation `data[resource] += amount`
(bot.js 739-742): signed delta, no clamping and no failure path. -/
def adjust (p : PlayerRecord) (r : Resource) (delta : Int) : PlayerRecord :=
  p.set r (p.get r + delta)

/-- The `/set` handler (bot.js 664-682): stores the five new maxima, sets
current HP/MP/Armor/Barrier to those maxima, and keeps the current IP
(`const currentIP = data.IP || 0` then `data.IP = currentIP`; the `|| 0`
is embedded as the zero test JS truthiness performs on an integer). -/
def upsertMax (p : PlayerRecord) (characterName username : String)
    (hp mp ip armor barrier : Int) : PlayerRecord :=
  let currentIP : Int := if p.IP = 0 then 0 else p.IP
  { p with
    maxHP := hp, maxMP := mp, maxIP := ip, maxArmor := armor, maxBarrier := barrier
    HP := hp, MP := mp, IP := currentIP, Armor := armor, Barrier := barrier
    username := username, characterName := characterName }

/-! ## Dice classification

The attack handler (bot.js 1216-1218), the cast handler (1304-1306), the
check handler (1363-1365) and the button resume handler (1844-1846) all
contain the identical three lines computing `isFumble`, `isCrit` and the
hit flag; they are embedded once. -/

/-- `roll1 === 1 && roll2 === 1`. -/
def isFumble (roll1 roll2 : Nat) : Bool :=
  roll1 == 1 && roll2 == 1

/-- `!isFumble && roll1 === roll2 && roll1 > 5`. -/
def isCrit (roll1 roll2 : Nat) : Bool :=
  !(isFumble roll1 roll2) && roll1 == roll2 && decide (5 < roll1)

/-- `isFumble ? false : isCrit ? true : (roll1 > gate && roll2 > gate)`. -/
def isHit (roll1 roll2 gate : Nat) : Bool :=
  if isFumble roll1 roll2 then false
  else if isCrit roll1 roll2 then true
  else decide (gate < roll1) && decide (gate < roll2)

/-- The four outcome classes the handlers report (the `if isFumble / else
if isCrit / else if isHit / else` display chain). -/
inductive RollClass
  | fumble | critical | hit | miss
  deriving Repr, DecidableEq

/-- The classification the attack, cast and check handlers print, in the
code's branch order. -/
def classifyRoll (roll1 roll2 gate : Nat) : RollClass :=
  if isFumble roll1 roll2 then .fumble
  else if isCrit roll1 roll2 then .critical
  else if isHit roll1 roll2 gate then .hit
  else .miss

/-! ## Penalty ledger

The per-player attack penalty entry `{ gate: 0, damageReduction: 0,
blind: false }` (bot.js 48, 1122) and the per-player attack counter
(bot.js 44, 1126-1127).  Both only ever hold non-negative integers. -/

/-- One `attackPenalties` entry. -/
structure Penalties where
  gate : Nat
  damageReduction : Nat
  blind : Bool
  deriving Repr, DecidableEq

/-- The entry created on first use (bot.js 1122). -/
def freshPenalties : Penalties :=
  { gate := 0, damageReduction := 0, blind := false }

/-- The four penalty choices of the `penalties` option and of the prompt
buttons (bot.js 502-507, 1143-1158). -/
inductive PenaltyChoice
  | gate | damage50 | damage100 | blind
  deriving Repr, DecidableEq

/-- Applying one choice to a penalty entry; the same four branches appear
in the attack handler's manual path (bot.js 1184-1194) and in the button
resume handler (bot.js 1813-1822). -/
def applyPenalty (p : Penalties) : PenaltyChoice → Penalties
  | .gate => { p with gate := p.gate + 1 }
  | .damage50 => { p with damageReduction := p.damageReduction + 50 }
  | .damage100 => { p with damageReduction := p.damageReduction + 100 }
  | .blind => { p with blind := true }

/-- `penalties.blind ? 3 : (1 + penalties.gate)` — the gate used in attack
resolution, identical on the direct path (bot.js 1197) and the resumed
path (bot.js 1825). -/
def effectiveGate (p : Penalties) : Nat :=
  if p.blind then 3 else 1 + p.gate

/-- Direct attack path: `Math.max(0, 1 - penalties.damageReduction / 100)`
(bot.js 1198).  All reachable `damageReduction` values are multiples of
50, for which JS double arithmetic is exact, so `ℚ` embeds it
faithfully. -/
def damageMultiplier (dr : Nat) : ℚ :=
  max 0 (1 - (dr : ℚ) / 100)

/-- Resumed (button) path: `1 - penalties.damageReduction / 100` with no
clamp (bot.js 1826). -/
def buttonDamageMultiplier (dr : Nat) : ℚ :=
  1 - (dr : ℚ) / 100

/-- `Math.floor(modifier * damageMultiplier)` on the direct attack path
(bot.js 1199). -/
def attackFinalModifier (m : Int) (dr : Nat) : Int :=
  Int.floor ((m : ℚ) * damageMultiplier dr)

/-- `Math.floor(modifier * damageMultiplier)` on the resumed (button)
path (bot.js 1827). -/
def buttonFinalModifier (m : Int) (dr : Nat) : Int :=
  Int.floor ((m : ℚ) * buttonDamageMultiplier dr)

/-- A player's attack bookkeeping: the `attackCounters` entry (0 when the
map has none) and the `attackPenalties` entry. -/
structure PenaltyLedger where
  count : Nat
  pen : Penalties
  deriving Repr, DecidableEq

/-- What one attack or cast request produces before any dice are drawn:
either the deferred penalty prompt (carrying the new attempt count and
whether the blind button is disabled, bot.js 1133-1181) or a resolution
with the gate and final modifier the roll will use. -/
inductive RollDispatch
  | prompt (count : Nat) (blindDisabled : Bool)
  | resolved (gate : Nat) (finalModifier : Int)
  deriving Repr, DecidableEq

/-- The `/attack` handler up to the dice draw (bot.js 1108-1218): bump the
counter, prompt when this is the 2nd+ attack and no manual penalty was
given (returning before any penalty or roll state changes further),
otherwise apply the manual choice if any and resolve with the effective
gate and clamped final modifier. -/
def attackStep (st : PenaltyLedger) (manual : Option PenaltyChoice)
    (modifier : Int) : RollDispatch × PenaltyLedger :=
  let currentCount := st.count + 1
  let penalties := st.pen
  if 2 ≤ currentCount ∧ manual = none then
    (.prompt currentCount penalties.blind, { count := currentCount, pen := penalties })
  else
    let penalties :=
      match manual with
      | some c => applyPenalty penalties c
      | none => penalties
    let gate := effectiveGate penalties
    let fm := attackFinalModifier modifier penalties.damageReduction
    (.resolved gate fm, { count := currentCount, pen := penalties })

/-- The `/cast` handler up to the dice draw (bot.js 1254-1306): bump the
cast counter and always resolve in the same request.  A manual choice is
applied to this roll only — `gate = 2` for the gate choice,
`Math.floor(modifier / 2)` for damage50, `0` for damage100, and no branch
at all for blind — and no `castPenalties` entry is ever written.  Returns
the dispatch and the new counter value. -/
def castStep (count0 : Nat) (manual : Option PenaltyChoice)
    (modifier : Int) : RollDispatch × Nat :=
  let currentCount := count0 + 1
  let gateAndMod : Nat × Int :=
    match manual with
    | some .gate => (2, modifier)
    | some .damage50 => (1, Int.fdiv modifier 2)
    | some .damage100 => (1, 0)
    | _ => (1, modifier)
  (.resolved gateAndMod.1 gateAndMod.2, currentCount)

/-- Outcome of a button press on a pending attack-penalty prompt. -/
inductive ResumeResult
  | unauthorized
  | resolved (gate : Nat) (finalModifier : Int)
  deriving Repr, DecidableEq

/-- The button `interactionCreate` handler (bot.js 1788-1881): a presser
other than the player id embedded in the button's custom id is turned away
before any state is read or written; the owner's press updates their
display name (`initPlayer`), applies the chosen penalty cumulatively and
resolves with the effective gate and the unclamped button-path modifier. -/
def resumePenalty (requesterId ownerId displayName : String)
    (st : PenaltyLedger) (rec : PlayerRecord) (choice : PenaltyChoice)
    (modifier : Int) : ResumeResult × PenaltyLedger × PlayerRecord :=
  if requesterId ≠ ownerId then
    (.unauthorized, st, rec)
  else
    let rec2 := { rec with username := displayName }
    let penalties := applyPenalty st.pen choice
    let gate := effectiveGate penalties
    let fm := buttonFinalModifier modifier penalties.damageReduction
    (.resolved gate fm, { st with pen := penalties }, rec2)

/-! ## Damage application -/

/-- The `type` option of `/damage` (bot.js 470-477). -/
inductive ProtectionType
  | armor | barrier
  deriving Repr, DecidableEq

/-- `damageType === 'armor' ? 'Armor' : 'Barrier'` (bot.js 1043). -/
def protResource : ProtectionType → Resource
  | .armor => .Armor
  | .barrier => .Barrier

/-- The other protection resource, untouched by `/damage`. -/
def otherProtResource : ProtectionType → Resource
  | .armor => .Barrier
  | .barrier => .Armor

/-- The per-target numbers the `/damage` handler reports. -/
structure DamageOutcome where
  protectionUsed : Int
  hpLost : Int
  deriving Repr, DecidableEq

/-- The `/damage` handler's per-target mutation (bot.js 1051-1074): the
chosen protection absorbs damage while positive, any remainder is
subtracted from HP, and `protectionUsed` / `hpLost` are tracked for the
report. -/
def applyDamage (rec : PlayerRecord) (t : ProtectionType)
    (damageAmount : Int) : PlayerRecord × DamageOutcome :=
  let res := protResource t
  let prot := rec.get res
  let step :=
    if 0 < prot then
      if damageAmount ≤ prot then
        (prot - damageAmount, (0 : Int), damageAmount)
      else
        ((0 : Int), damageAmount - prot, prot)
    else
      (prot, damageAmount, (0 : Int))
  let rec1 := rec.set res step.1
  let remaining := step.2.1
  let protectionUsed := step.2.2
  let afterHP :=
    if 0 < remaining then (rec1.set .HP (rec1.get .HP - remaining), remaining)
    else (rec1, (0 : Int))
  (afterHP.1, { protectionUsed := protectionUsed, hpLost := afterHP.2 })

end Bot

namespace Bot

/-- `n` successive gate choices applied to a penalty entry. -/
def applyGateN : Nat → Penalties → Penalties
  | 0, p => p
  | n + 1, p => applyPenalty (applyGateN n p) PenaltyChoice.gate

theorem applyGateN_gate (n : Nat) (p : Penalties) :
    (applyGateN n p).gate = p.gate + n := by
  induction n with
  | zero => rfl
  | succ k ih => simp [applyGateN, applyPenalty, ih]; omega

theorem applyGateN_blind (n : Nat) (p : Penalties) :
    (applyGateN n p).blind = p.blind := by
  induction n with
  | zero => rfl
  | succ k ih => simp [applyGateN, applyPenalty, ih]

theorem attackFinalModifier_zero (m : Int) : attackFinalModifier m 0 = m := by
  unfold attackFinalModifier damageMultiplier
  norm_num

theorem isFumble_eq_true_iff (r1 r2 : Nat) :
    isFumble r1 r2 = true ↔ r1 = 1 ∧ r2 = 1 := by
  simp [isFumble]

theorem isCrit_eq_true_iff (r1 r2 : Nat) :
    isCrit r1 r2 = true ↔ r1 = r2 ∧ 5 < r1 := by
  simp [isCrit, isFumble]
  omega

end Bot

/-- C1: for every gate g ≥ 1, die sizes d1, d2 ≥ 2 and injected results
r1 ∈ [1,d1], r2 ∈ [1,d2], the shared attack/cast/check classification
follows the spec's precedence: fumble iff both rolls are 1 (independently
of g); otherwise critical iff the rolls are equal and exceed 5
(independently of g); otherwise hit/success iff both rolls exceed g, and
miss/fail otherwise. -/
theorem Bot.C1_roll_classification (g d1 d2 r1 r2 : Nat)
    (hg : 1 ≤ g) (hd1 : 2 ≤ d1) (hd2 : 2 ≤ d2)
    (hr1 : 1 ≤ r1 ∧ r1 ≤ d1) (hr2 : 1 ≤ r2 ∧ r2 ≤ d2) :
    (classifyRoll r1 r2 g = RollClass.fumble ↔ r1 = 1 ∧ r2 = 1) ∧
    (¬(r1 = 1 ∧ r2 = 1) →
      (classifyRoll r1 r2 g = RollClass.critical ↔ r1 = r2 ∧ 5 < r1)) ∧
    (¬(r1 = 1 ∧ r2 = 1) → ¬(r1 = r2 ∧ 5 < r1) →
      ((classifyRoll r1 r2 g = RollClass.hit ↔ g < r1 ∧ g < r2) ∧
       (classifyRoll r1 r2 g = RollClass.miss ↔ ¬(g < r1 ∧ g < r2)))) := by
  by_cases hf : r1 = 1 ∧ r2 = 1
  · obtain ⟨e1, e2⟩ := hf
    subst e1; subst e2
    simp [classifyRoll, isFumble]
  · have h1 : isFumble r1 r2 = false := by
      rw [← Bool.not_eq_true, isFumble_eq_true_iff]; exact hf
    by_cases hc : r1 = r2 ∧ 5 < r1
    · have h2 : isCrit r1 r2 = true := (isCrit_eq_true_iff r1 r2).mpr hc
      have hcl : classifyRoll r1 r2 g = RollClass.critical := by
        simp [classifyRoll, h1, h2]
      exact ⟨by simp [hcl, hf],
        fun _ => by rw [hcl]; exact ⟨fun _ => hc, fun _ => rfl⟩,
        fun _ hnc => absurd hc hnc⟩
    · have h2 : isCrit r1 r2 = false := by
        rw [← Bool.not_eq_true, isCrit_eq_true_iff]; exact hc
      by_cases hh : g < r1 ∧ g < r2
      · have hcl : classifyRoll r1 r2 g = RollClass.hit := by
          simp [classifyRoll, isHit, h1, h2, hh]
        exact ⟨by simp [hcl, hf], fun _ => by simp [hcl, hc],
          fun _ _ => ⟨by rw [hcl]; exact ⟨fun _ => hh, fun _ => rfl⟩,
            by simp [hcl, hh]⟩⟩
      · have hcl : classifyRoll r1 r2 g = RollClass.miss := by
          simp [classifyRoll, isHit, h1, h2, hh]
        exact ⟨by simp [hcl, hf], fun _ => by simp [hcl, hc],
          fun _ _ => ⟨by simp [hcl, hh],
            by rw [hcl]; exact ⟨fun _ => hh, fun _ => rfl⟩⟩⟩

/-- Witness for C1 at g = 1, d1 = d2 = 6, r1 = 3, r2 = 4. -/
theorem Bot.C1_roll_classification_witness :
    ((1 : Nat) ≤ 1 ∧ (2 : Nat) ≤ 6 ∧ (2 : Nat) ≤ 6 ∧
      ((1 : Nat) ≤ 3 ∧ (3 : Nat) ≤ 6) ∧ ((1 : Nat) ≤ 4 ∧ (4 : Nat) ≤ 6)) ∧
    ((Bot.classifyRoll 3 4 1 = Bot.RollClass.fumble ↔ 3 = 1 ∧ 4 = 1) ∧
    (¬(3 = 1 ∧ 4 = 1) →
      (Bot.classifyRoll 3 4 1 = Bot.RollClass.critical ↔ 3 = 4 ∧ 5 < 3)) ∧
    (¬(3 = 1 ∧ 4 = 1) → ¬(3 = 4 ∧ 5 < 3) →
      ((Bot.classifyRoll 3 4 1 = Bot.RollClass.hit ↔ 1 < 3 ∧ 1 < 4) ∧
       (Bot.classifyRoll 3 4 1 = Bot.RollClass.miss ↔ ¬(1 < 3 ∧ 1 < 4))))) :=
  ⟨⟨by decide, by decide, by decide, ⟨by decide, by decide⟩, ⟨by decide, by decide⟩⟩,
    Bot.C1_roll_classification 1 6 6 3 4 (by decide) (by decide) (by decide)
      ⟨by decide, by decide⟩ ⟨by decide, by decide⟩⟩

/-- C2: an attack request by a player with no recorded attack this round
and no manual penalty choice resolves immediately with gate 1 and no
prompt; with a recorded count that will reach 2 or more and no manual
choice, a penalty prompt is issued and the roll is not resolved in that
request; attack #2 with the manual gate choice resolves with gate 2; and a
cast request always resolves in the same request, never prompting,
whatever its count. -/
theorem Bot.C2_attack_prompt_gating (st : Bot.PenaltyLedger) (m : Int)
    (c0 : Nat) (h2 : 1 ≤ st.count) :
    Bot.attackStep { count := 0, pen := Bot.freshPenalties } none m =
      (Bot.RollDispatch.resolved 1 m, { count := 1, pen := Bot.freshPenalties }) ∧
    (Bot.attackStep st none m).1 =
      Bot.RollDispatch.prompt (st.count + 1) st.pen.blind ∧
    (Bot.attackStep { count := 1, pen := Bot.freshPenalties }
        (some Bot.PenaltyChoice.gate) m).1 = Bot.RollDispatch.resolved 2 m ∧
    (∀ manual, ∃ g fm,
      (Bot.castStep c0 manual m).1 = Bot.RollDispatch.resolved g fm) := by
  refine ⟨?_, ?_, ?_, ?_⟩
  · simp [Bot.attackStep, Bot.effectiveGate, Bot.freshPenalties,
      Bot.attackFinalModifier_zero]
  · have h : 2 ≤ st.count + 1 := by omega
    simp [Bot.attackStep, h]
  · simp [Bot.attackStep, Bot.applyPenalty, Bot.effectiveGate,
      Bot.freshPenalties, Bot.attackFinalModifier_zero]
  · intro manual
    cases manual with
    | none => exact ⟨1, m, rfl⟩
    | some c => cases c <;> exact ⟨_, _, rfl⟩

/-- Witness for C2 at st = ⟨1, fresh⟩, m = 7, c0 = 3. -/
theorem Bot.C2_attack_prompt_gating_witness :
    ((1 : Nat) ≤ 1) ∧
    (Bot.attackStep { count := 0, pen := Bot.freshPenalties } none 7 =
      (Bot.RollDispatch.resolved 1 7, { count := 1, pen := Bot.freshPenalties }) ∧
    (Bot.attackStep { count := 1, pen := Bot.freshPenalties } none 7).1 =
      Bot.RollDispatch.prompt 2 false ∧
    (Bot.attackStep { count := 1, pen := Bot.freshPenalties }
        (some Bot.PenaltyChoice.gate) 7).1 = Bot.RollDispatch.resolved 2 7 ∧
    (∀ manual, ∃ g fm,
      (Bot.castStep 3 manual 7).1 = Bot.RollDispatch.resolved g fm)) :=
  ⟨by decide,
    Bot.C2_attack_prompt_gating { count := 1, pen := Bot.freshPenalties } 7 3
      (by decide)⟩

/-- C3 counterexample: a second consecutive cast with the manual gate
choice resolves with gate 2, not the 1 + 2 = 3 the claim's stacking rule
predicts for the cast kind — the cast handler stores no per-kind
`gateBonus` at all. -/
theorem Bot.C3_cast_gate_not_stacking :
    (Bot.castStep 1 (some Bot.PenaltyChoice.gate) 5).1 =
      Bot.RollDispatch.resolved 2 5 ∧ (2 : Nat) ≠ 1 + 2 :=
  ⟨rfl, by decide⟩

/-- C3 amended: for the attack kind, every gate choice increments that
player's `gateBonus` by 1 (leaving blind alone), stacking without bound,
so after n gate choices from a fresh round the attack resolution gate is
1 + n; for the cast kind, penalty choices do not accumulate — a manual
gate choice sets that single roll's gate to exactly 2, regardless of the
cast count or of any earlier choices. -/
theorem Bot.C3_gate_stacking_amended (p : Bot.Penalties) (n c0 : Nat) (m : Int) :
    (Bot.applyPenalty p Bot.PenaltyChoice.gate).gate = p.gate + 1 ∧
    (Bot.applyPenalty p Bot.PenaltyChoice.gate).blind = p.blind ∧
    Bot.effectiveGate (Bot.applyGateN n Bot.freshPenalties) = 1 + n ∧
    (Bot.castStep c0 (some Bot.PenaltyChoice.gate) m).1 =
      Bot.RollDispatch.resolved 2 m := by
  refine ⟨rfl, rfl, ?_, rfl⟩
  simp [Bot.effectiveGate, Bot.applyGateN_blind, Bot.applyGateN_gate,
    Bot.freshPenalties]

/-- C4 (code slip): with raw modifier 10, the direct attack path and the
resumed button path agree at 100% damage reduction (both 0), but at 150%
(one damage50 choice then one damage100 choice) the resumed path, which
omits the `Math.max(0, ...)` clamp, produces modifier -5 where the spec's
formula — and the direct path — produce 0. -/
theorem Bot.C4_resumed_modifier_unclamped :
    Bot.attackFinalModifier 10 100 = 0 ∧
    Bot.buttonFinalModifier 10 100 = 0 ∧
    Bot.attackFinalModifier 10 150 = 0 ∧
    Bot.buttonFinalModifier 10 150 = -5 := by
  refine ⟨?_, ?_, ?_, ?_⟩ <;>
    · simp only [Bot.attackFinalModifier, Bot.buttonFinalModifier,
        Bot.damageMultiplier, Bot.buttonDamageMultiplier]
      norm_num

/-- C5: the effective attack gate is monotonically non-decreasing in the
number of gate choices applied, and once blind is applied it is exactly 3
no matter how many gate choices came before or come after. -/
theorem Bot.C5_effectiveGate_monotone (p q : Bot.Penalties) (n m : Nat)
    (h : n ≤ m) :
    Bot.effectiveGate (Bot.applyGateN n p) ≤
      Bot.effectiveGate (Bot.applyGateN m p) ∧
    (p.blind = true → ∀ k, Bot.effectiveGate (Bot.applyGateN k p) = 3) ∧
    (∀ k j, Bot.effectiveGate (Bot.applyGateN j
      (Bot.applyPenalty (Bot.applyGateN k q) Bot.PenaltyChoice.blind)) = 3) := by
  refine ⟨?_, ?_, ?_⟩
  · by_cases hb : p.blind
    · simp [Bot.effectiveGate, Bot.applyGateN_blind, hb]
    · simp [Bot.effectiveGate, Bot.applyGateN_blind, Bot.applyGateN_gate, hb]
      omega
  · intro hb k
    simp [Bot.effectiveGate, Bot.applyGateN_blind, hb]
  · intro k j
    simp [Bot.effectiveGate, Bot.applyGateN_blind, Bot.applyPenalty]

/-- Witness for C5 at p = ⟨2, 0, true⟩, q = fresh, n = 1, m = 2. -/
theorem Bot.C5_effectiveGate_monotone_witness :
    ((1 : Nat) ≤ 2) ∧
    (Bot.effectiveGate (Bot.applyGateN 1 ⟨2, 0, true⟩) ≤
      Bot.effectiveGate (Bot.applyGateN 2 ⟨2, 0, true⟩) ∧
    ((Bot.Penalties.mk 2 0 true).blind = true →
      ∀ k, Bot.effectiveGate (Bot.applyGateN k ⟨2, 0, true⟩) = 3) ∧
    (∀ k j, Bot.effectiveGate (Bot.applyGateN j
      (Bot.applyPenalty (Bot.applyGateN k Bot.freshPenalties)
        Bot.PenaltyChoice.blind)) = 3)) :=
  ⟨by decide,
    Bot.C5_effectiveGate_monotone ⟨2, 0, true⟩ Bot.freshPenalties 1 2 (by decide)⟩

/-- C6: applying the blind choice is idempotent — a second application
leaves the whole penalty entry (gate, damage reduction, blind flag)
unchanged, and on an entry already blind a single application changes
nothing — and once a player's attack entry is blind, the penalty prompt
their next unpenalized attack raises has its blind button disabled. -/
theorem Bot.C6_blind_idempotent (p : Bot.Penalties) (st : Bot.PenaltyLedger)
    (m : Int) (hb : st.pen.blind = true) (hc : 1 ≤ st.count) :
    Bot.applyPenalty (Bot.applyPenalty p Bot.PenaltyChoice.blind)
      Bot.PenaltyChoice.blind = Bot.applyPenalty p Bot.PenaltyChoice.blind ∧
    (p.blind = true → Bot.applyPenalty p Bot.PenaltyChoice.blind = p) ∧
    (Bot.attackStep st none m).1 = Bot.RollDispatch.prompt (st.count + 1) true := by
  refine ⟨rfl, ?_, ?_⟩
  · intro h
    cases p
    simp_all [Bot.applyPenalty]
  · have h : 2 ≤ st.count + 1 := by omega
    simp [Bot.attackStep, h, hb]

/-- Witness for C6 at p = ⟨1, 50, true⟩, st = ⟨2, ⟨0, 0, true⟩⟩, m = 4. -/
theorem Bot.C6_blind_idempotent_witness :
    ((Bot.Penalties.mk 0 0 true).blind = true ∧ (1 : Nat) ≤ 2) ∧
    (Bot.applyPenalty (Bot.applyPenalty ⟨1, 50, true⟩ Bot.PenaltyChoice.blind)
      Bot.PenaltyChoice.blind =
        Bot.applyPenalty ⟨1, 50, true⟩ Bot.PenaltyChoice.blind ∧
    ((Bot.Penalties.mk 1 50 true).blind = true →
      Bot.applyPenalty ⟨1, 50, true⟩ Bot.PenaltyChoice.blind = ⟨1, 50, true⟩) ∧
    (Bot.attackStep ⟨2, ⟨0, 0, true⟩⟩ none 4).1 = Bot.RollDispatch.prompt 3 true) :=
  ⟨⟨by decide, by decide⟩,
    Bot.C6_blind_idempotent ⟨1, 50, true⟩ ⟨2, ⟨0, 0, true⟩⟩ 4 (by decide) (by decide)⟩

/-- C7: a button press on a pending attack-penalty prompt by any user
other than the acting player embedded in the button id is rejected as
unauthorized with the penalty ledger (counter and penalties) and the
player record left exactly as they were; a press by the acting player
applies the chosen penalty cumulatively and resolves the roll. -/
theorem Bot.C7_resume_authorization (req own dn : String)
    (st : Bot.PenaltyLedger) (rec : Bot.PlayerRecord) (c : Bot.PenaltyChoice)
    (m : Int) :
    (req ≠ own →
      Bot.resumePenalty req own dn st rec c m =
        (Bot.ResumeResult.unauthorized, st, rec)) ∧
    (req = own →
      Bot.resumePenalty req own dn st rec c m =
        (Bot.ResumeResult.resolved
            (Bot.effectiveGate (Bot.applyPenalty st.pen c))
            (Bot.buttonFinalModifier m (Bot.applyPenalty st.pen c).damageReduction),
          { st with pen := Bot.applyPenalty st.pen c },
          { rec with username := dn })) := by
  constructor
  · intro h
    simp [Bot.resumePenalty, h]
  · intro h
    simp [Bot.resumePenalty, h]

/-- C8: for every prior player state, the set operation stores all five
maxima, refills current HP, MP, Armor and Barrier to the new maxima, and
leaves the current IP exactly as it was. -/
theorem Bot.C8_upsertMax_refill (p : Bot.PlayerRecord) (cn un : String)
    (hp mp ip armor barrier : Int) :
    (Bot.upsertMax p cn un hp mp ip armor barrier).maxHP = hp ∧
    (Bot.upsertMax p cn un hp mp ip armor barrier).maxMP = mp ∧
    (Bot.upsertMax p cn un hp mp ip armor barrier).maxIP = ip ∧
    (Bot.upsertMax p cn un hp mp ip armor barrier).maxArmor = armor ∧
    (Bot.upsertMax p cn un hp mp ip armor barrier).maxBarrier = barrier ∧
    (Bot.upsertMax p cn un hp mp ip armor barrier).HP = hp ∧
    (Bot.upsertMax p cn un hp mp ip armor barrier).MP = mp ∧
    (Bot.upsertMax p cn un hp mp ip armor barrier).Armor = armor ∧
    (Bot.upsertMax p cn un hp mp ip armor barrier).Barrier = barrier ∧
    (Bot.upsertMax p cn un hp mp ip armor barrier).IP = p.IP := by
  refine ⟨rfl, rfl, rfl, rfl, rfl, rfl, rfl, rfl, rfl, ?_⟩
  show (if p.IP = 0 then 0 else p.IP) = p.IP
  split <;> simp_all

/-- C9: the resource adjustment always succeeds as a total function and
sets the current value to exactly old + delta with no clamping; in
particular, after a set with max HP 20, adjusting HP by -25 leaves the
reachable unclamped value -5. -/
theorem Bot.C9_adjust_unclamped (p q : Bot.PlayerRecord) (r : Bot.Resource)
    (d : Int) :
    (Bot.adjust p r d).get r = p.get r + d ∧
    (Bot.adjust (Bot.upsertMax q "Rowan" "Rowan" 20 10 5 4 4)
      Bot.Resource.HP (-25)).get Bot.Resource.HP = -5 := by
  constructor
  · cases r <;> rfl
  · show (20 : Int) + (-25) = -5
    decide

/-- C10: for non-negative damage against a player whose chosen protection
(armor or barrier) is non-negative, the protection absorbs first and never
goes below zero, exactly min(protection, damage) is absorbed, absorbed
plus HP lost equals the damage, HP drops by exactly the HP lost, and the
other protection, MP, IP and all five maxima are unchanged. -/
theorem Bot.C10_damage_absorption (rec : Bot.PlayerRecord)
    (t : Bot.ProtectionType) (d : Int) (hd : 0 ≤ d)
    (hprot : 0 ≤ rec.get (Bot.protResource t)) :
    0 ≤ (Bot.applyDamage rec t d).1.get (Bot.protResource t) ∧
    (Bot.applyDamage rec t d).2.protectionUsed =
      min (rec.get (Bot.protResource t)) d ∧
    (Bot.applyDamage rec t d).2.protectionUsed +
      (Bot.applyDamage rec t d).2.hpLost = d ∧
    (Bot.applyDamage rec t d).1.HP = rec.HP - (Bot.applyDamage rec t d).2.hpLost ∧
    (Bot.applyDamage rec t d).1.get (Bot.otherProtResource t) =
      rec.get (Bot.otherProtResource t) ∧
    (Bot.applyDamage rec t d).1.MP = rec.MP ∧
    (Bot.applyDamage rec t d).1.IP = rec.IP ∧
    (Bot.applyDamage rec t d).1.maxHP = rec.maxHP ∧
    (Bot.applyDamage rec t d).1.maxMP = rec.maxMP ∧
    (Bot.applyDamage rec t d).1.maxIP = rec.maxIP ∧
    (Bot.applyDamage rec t d).1.maxArmor = rec.maxArmor ∧
    (Bot.applyDamage rec t d).1.maxBarrier = rec.maxBarrier := by
  cases t <;>
    · simp only [Bot.applyDamage, Bot.protResource, Bot.otherProtResource,
        Bot.PlayerRecord.get, Bot.PlayerRecord.set] at *
      split_ifs <;>
        simp_all [Bot.PlayerRecord.get, Bot.PlayerRecord.set] <;> omega

/-- Witness for C10: 5 armor-typed damage against a record with 3 armor
and 10 HP. -/
theorem Bot.C10_damage_absorption_witness :
    ((0 : Int) ≤ 5 ∧
      (0 : Int) ≤ (Bot.PlayerRecord.mk "u" "c" 10 2 3 3 4 20 5 5 5 5 []).get
        (Bot.protResource Bot.ProtectionType.armor)) ∧
    (0 ≤ (Bot.applyDamage ⟨"u", "c", 10, 2, 3, 3, 4, 20, 5, 5, 5, 5, []⟩
        Bot.ProtectionType.armor 5).1.get
        (Bot.protResource Bot.ProtectionType.armor) ∧
    (Bot.applyDamage ⟨"u", "c", 10, 2, 3, 3, 4, 20, 5, 5, 5, 5, []⟩
        Bot.ProtectionType.armor 5).2.protectionUsed =
      min ((Bot.PlayerRecord.mk "u" "c" 10 2 3 3 4 20 5 5 5 5 []).get
        (Bot.protResource Bot.ProtectionType.armor)) 5 ∧
    (Bot.applyDamage ⟨"u", "c", 10, 2, 3, 3, 4, 20, 5, 5, 5, 5, []⟩
        Bot.ProtectionType.armor 5).2.protectionUsed +
      (Bot.applyDamage ⟨"u", "c", 10, 2, 3, 3, 4, 20, 5, 5, 5, 5, []⟩
        Bot.ProtectionType.armor 5).2.hpLost = 5 ∧
    (Bot.applyDamage ⟨"u", "c", 10, 2, 3, 3, 4, 20, 5, 5, 5, 5, []⟩
        Bot.ProtectionType.armor 5).1.HP =
      10 - (Bot.applyDamage ⟨"u", "c", 10, 2, 3, 3, 4, 20, 5, 5, 5, 5, []⟩
        Bot.ProtectionType.armor 5).2.hpLost ∧
    (Bot.applyDamage ⟨"u", "c", 10, 2, 3, 3, 4, 20, 5, 5, 5, 5, []⟩
        Bot.ProtectionType.armor 5).1.get
        (Bot.otherProtResource Bot.ProtectionType.armor) =
      (Bot.PlayerRecord.mk "u" "c" 10 2 3 3 4 20 5 5 5 5 []).get
        (Bot.otherProtResource Bot.ProtectionType.armor) ∧
    (Bot.applyDamage ⟨"u", "c", 10, 2, 3, 3, 4, 20, 5, 5, 5, 5, []⟩
        Bot.ProtectionType.armor 5).1.MP = 2 ∧
    (Bot.applyDamage ⟨"u", "c", 10, 2, 3, 3, 4, 20, 5, 5, 5, 5, []⟩
        Bot.ProtectionType.armor 5).1.IP = 3 ∧
    (Bot.applyDamage ⟨"u", "c", 10, 2, 3, 3, 4, 20, 5, 5, 5, 5, []⟩
        Bot.ProtectionType.armor 5).1.maxHP = 20 ∧
    (Bot.applyDamage ⟨"u", "c", 10, 2, 3, 3, 4, 20, 5, 5, 5, 5, []⟩
        Bot.ProtectionType.armor 5).1.maxMP = 5 ∧
    (Bot.applyDamage ⟨"u", "c", 10, 2, 3, 3, 4, 20, 5, 5, 5, 5, []⟩
        Bot.ProtectionType.armor 5).1.maxIP = 5 ∧
    (Bot.applyDamage ⟨"u", "c", 10, 2, 3, 3, 4, 20, 5, 5, 5, 5, []⟩
        Bot.ProtectionType.armor 5).1.maxArmor = 5 ∧
    (Bot.applyDamage ⟨"u", "c", 10, 2, 3, 3, 4, 20, 5, 5, 5, 5, []⟩
        Bot.ProtectionType.armor 5).1.maxBarrier = 5) :=
  ⟨⟨by decide, by decide⟩,
    Bot.C10_damage_absorption ⟨"u", "c", 10, 2, 3, 3, 4, 20, 5, 5, 5, 5, []⟩
      Bot.ProtectionType.armor 5 (by decide) (by decide)⟩
